import Mathlib

/-!
Verification of the focus-hunter focus-trapping library.

The repository contains several snapshots of the same modules:
  * `src/exports/tabbable.js`              — early tabbability classifier (string-equality
    tabindex test, aria-disabled test, no anchor/href rule, unsorted walker);
  * `src/unnamed/part_004` (second doc)    — composed-offset-position classifier
    (`Number(tabindex) <= -1`, `["area","a"]` href rule, sorted walker);
  * `src/unnamed/part_010`                 — bundled demo variant (`isTakingUpSpace`
    visibility, `a`-only href rule, sorted walker, plain Trap);
  * `src/__tests__/tabbable.test.js` (second doc) — newest classifier
    (`isNaN(tabindex) || tabindex <= -1`, `closest("[inert]")`, `getAttribute("href")`
    falsiness rule, overflow heuristic, walker with a `checkedElements` map);
  * `src/exports/focus-hunter.js`          — newest Trap (`possiblyHasTabbableChildren`
    guard and an early return on backward traversal in `adjustFocus`).

Each variant that a claim cites is embedded separately and named after its origin.

Modelling conventions:
  * An element is a record of the attributes and platform oracles the classifiers read.
    `id` models JavaScript object identity (`===`); trees used in theorems carry
    pairwise distinct ids.
  * Platform queries that cannot be recomputed (offsetParent, checkVisibility,
    computed style, overflow geometry) are oracle fields on the element record.
  * `Number(attrValue)` is modelled for integer-literal strings (every tabindex used
    by the claims); `none` plays the role of NaN, and `Number(null) = 0`.
  * The DOM fragment is a rose tree with an optional shadow root; slot elements do not
    occur in any claim scenario, so the `HTMLSlotElement` branch of the walkers
    (a no-op for non-slot elements) is not represented.
  * `Array.prototype.sort`, which ECMAScript requires to be stable, is modelled by a
    stable insertion sort over the comparator `sortByTabIndex`.
-/

/-- Attributes and platform oracles of a DOM element, as read by the classifiers.
`id` models JavaScript object identity. -/
structure ElemData where
  id : Nat
  tag : String
  tabindex : Option String
  disabled : Bool
  ariaDisabled : Option String
  inert : Bool
  href : Option String
  contenteditable : Option String
  controls : Bool
  checked : Bool
  typeAttr : Option String
  hasOffsetParent : Bool
  visibilityHidden : Bool
  visible : Bool
  takingUpSpace : Bool
  overflowTabbable : Bool
deriving DecidableEq, Repr

/-- Accumulating decimal-digit parser for `jsNumberOfString`. -/
def parseDigitsAux : List Char → Nat → Option Nat
  | [], acc => some acc
  | c :: cs, acc => if c.isDigit then parseDigitsAux cs (acc * 10 + (c.toNat - 48)) else none

/-- JavaScript `Number(s)` for an integer-literal string: `none` models NaN and the
empty string converts to 0, as in JS. (JS also trims whitespace and accepts
non-integer numerals; no value exercised by the claims uses either.) -/
def jsNumberOfString (s : String) : Option Int :=
  match s.data with
  | [] => some 0
  | '-' :: rest => if rest.isEmpty then none else (parseDigitsAux rest 0).map (fun n => -(n : Int))
  | '+' :: rest => if rest.isEmpty then none else (parseDigitsAux rest 0).map (fun n => (n : Int))
  | cs => (parseDigitsAux cs 0).map (fun n => (n : Int))

/-- JavaScript `Number(el.getAttribute(a))`: a missing attribute gives
`Number(null) = 0`. -/
def jsNumber : Option String → Option Int
  | none => some 0
  | some s => jsNumberOfString s

/-- JS `x <= -1` where `x = Number(v)`: false when `x` is NaN. -/
def jsLeNegOne (v : Option String) : Bool :=
  match jsNumber v with
  | none => false
  | some k => k ≤ -1

/-- src/exports/tabbable.js, `isTabbable` (early snapshot): literal `'-1'` tabindex
test, aria-disabled test, offsetParent and computed-visibility checks, no anchor
rule, short native whitelist. -/
def isTabbable_exports (el : ElemData) : Bool :=
  if el.tabindex = some "-1" then false
  else if el.disabled then false
  else if el.ariaDisabled.isSome && el.ariaDisabled ≠ some "false" then false
  else if el.tag = "input" && el.typeAttr = some "radio" && !el.checked then false
  else if !el.hasOffsetParent then false
  else if el.visibilityHidden then false
  else if (el.tag = "audio" || el.tag = "video") && el.controls then true
  else if el.tabindex.isSome then true
  else if el.contenteditable.isSome && el.contenteditable ≠ some "false" then true
  else ["button", "input", "select", "textarea", "a", "audio", "video", "summary"].contains el.tag

/-- src/unnamed/part_004 (second doc), `isTabbable` (composed-offset-position
variant): `Number(tabindex) <= -1` test, `["area", "a"]` href-presence rule,
extended whitelist. -/
def isTabbable_offset (el : ElemData) : Bool :=
  if jsLeNegOne el.tabindex then false
  else if el.disabled then false
  else if el.tag = "input" && el.typeAttr = some "radio" && !el.checked then false
  else if !el.hasOffsetParent then false
  else if (el.tag = "area" || el.tag = "a") && !el.href.isSome then false
  else if el.visibilityHidden then false
  else if (el.tag = "audio" || el.tag = "video") && el.controls then true
  else if el.tabindex.isSome then true
  else if el.contenteditable.isSome && el.contenteditable ≠ some "false" then true
  else ["button", "input", "select", "textarea", "a", "audio", "video", "summary", "iframe", "object", "embed"].contains el.tag

/-- src/unnamed/part_010, `isTabbable` (demo-bundle variant): `isTakingUpSpace`
visibility oracle, `a`-only href-presence rule. -/
def isTabbable_p010 (el : ElemData) : Bool :=
  if jsLeNegOne el.tabindex then false
  else if el.disabled then false
  else if el.tag = "input" && el.typeAttr = some "radio" && !el.checked then false
  else if !el.takingUpSpace then false
  else if el.tag = "a" && !el.href.isSome then false
  else if el.visibilityHidden then false
  else if (el.tag = "audio" || el.tag = "video") && el.controls then true
  else if el.tabindex.isSome then true
  else if el.contenteditable.isSome && el.contenteditable ≠ some "false" then true
  else ["button", "input", "select", "textarea", "a", "audio", "video", "summary", "iframe", "object", "embed"].contains el.tag

/-- src/__tests__/tabbable.test.js lines 214-276, `isTabbable` (newest variant):
`hasTabindex && (isNaN(tabindex) || tabindex <= -1)` test, `closest("[inert]")`
test, `checkVisibility` oracle, `!el.getAttribute("href")` falsiness rule for
anchors (absent or empty href both fail), overflow heuristic last.
`ancestorInert` supplies the part of `el.closest("[inert]")` contributed by
ancestors outside the element itself. -/
def isTabbable_latest (el : ElemData) (ancestorInert : Bool) : Bool :=
  if el.tabindex.isSome && ((jsNumber el.tabindex).isNone || jsLeNegOne el.tabindex) then false
  else if el.disabled then false
  else if el.inert || ancestorInert then false
  else if el.tag = "input" && el.typeAttr = some "radio" && !el.checked then false
  else if !el.visible then false
  else if el.tag = "a" && (el.href = none || el.href = some "") then false
  else if (el.tag = "audio" || el.tag = "video") && el.controls then true
  else if el.tabindex.isSome && (match jsNumber el.tabindex with | some k => k ≥ 0 | none => false) then true
  else if el.contenteditable.isSome && el.contenteditable ≠ some "false" then true
  else if ["button", "input", "select", "textarea", "a", "audio", "video", "summary", "iframe", "object", "embed"].contains el.tag then true
  else el.overflowTabbable

/-- A DOM fragment: an element together with its optional shadow root
(`shadowOpen = none` means no shadow root, `some true` an open one, `some false`
a closed one whose children `shadowChildren` are then never walked) and its
light-tree children. Slot elements occur in no claim scenario, so the
`HTMLSlotElement` branch of the walkers (a no-op on every other element) has no
counterpart here. -/
inductive Node where
  | mk (data : ElemData) (shadowOpen : Option Bool) (shadowChildren : List Node) (children : List Node)
deriving Repr

/-- The element record at the root of a fragment. -/
def Node.data : Node → ElemData
  | .mk d _ _ _ => d

mutual
/-- src/exports/tabbable.js lines 109-148, `walk` (early snapshot, generator):
skip inert subtrees, yield an unseen tabbable element, descend into an open
shadow root, then into light-tree children. The `tabbableElements` identity set
is threaded as a list of ids. -/
def walk_exports : Node → List Nat → List ElemData × List Nat
  | .mk d sOpen sCh ch, s =>
    if d.inert then ([], s)
    else
      let (y0, s0) := if !s.contains d.id && isTabbable_exports d then ([d], d.id :: s) else ([], s)
      let (y1, s1) := if sOpen = some true then walk_exportsList sCh s0 else ([], s0)
      let (y2, s2) := walk_exportsList ch s1
      (y0 ++ y1 ++ y2, s2)

/-- The `for (const e of Array.from(el.children))` loop of `walk_exports`; also
models calling the walker on a shadow root (not an `Element`), which only walks
the children. -/
def walk_exportsList : List Node → List Nat → List ElemData × List Nat
  | [], s => ([], s)
  | n :: rest, s =>
    let (y1, s1) := walk_exports n s
    let (y2, s2) := walk_exportsList rest s1
    (y1 ++ y2, s2)
end

mutual
/-- src/unnamed/part_010 lines 167-196, `walk` (demo-bundle variant): same shape
as the early walker but with the demo-bundle classifier. -/
def walk_p010 : Node → List Nat → List ElemData × List Nat
  | .mk d sOpen sCh ch, s =>
    if d.inert then ([], s)
    else
      let (y0, s0) := if !s.contains d.id && isTabbable_p010 d then ([d], d.id :: s) else ([], s)
      let (y1, s1) := if sOpen = some true then walk_p010List sCh s0 else ([], s0)
      let (y2, s2) := walk_p010List ch s1
      (y0 ++ y1 ++ y2, s2)

/-- The children loop of `walk_p010`. -/
def walk_p010List : List Node → List Nat → List ElemData × List Nat
  | [], s => ([], s)
  | n :: rest, s =>
    let (y1, s1) := walk_p010 n s
    let (y2, s2) := walk_p010List rest s1
    (y1 ++ y2, s2)
end

mutual
/-- src/__tests__/tabbable.test.js lines 323-358, `walk` (newest variant): skips
a subtree when the element or one of its ancestors is inert (`ancestorInert`
carries the contribution of ancestors above the walk root; ancestors inside the
walked tree are non-inert whenever a node is reached, because inert subtrees are
pruned), returns early on an already-checked element, yields unseen tabbable
elements, then descends into an open shadow root and the light-tree children.
State: the `tabbableElements` set then the `checkedElements` map, as id lists. -/
def walk_latest : Node → Bool → List Nat → List Nat → List ElemData × List Nat × List Nat
  | .mk d sOpen sCh ch, ai, tabbed, checked =>
    if d.inert || ai then ([], tabbed, checked)
    else if checked.contains d.id then ([], tabbed, checked)
    else
      let c1 := d.id :: checked
      let (y0, t0) := if !tabbed.contains d.id && isTabbable_latest d ai then ([d], d.id :: tabbed) else ([], tabbed)
      let (y1, t1, c2) := if sOpen = some true then walk_latestList sCh ai t0 c1 else ([], t0, c1)
      let (y2, t2, c3) := walk_latestList ch ai t1 c2
      (y0 ++ y1 ++ y2, t2, c3)

/-- The children loop of `walk_latest`. -/
def walk_latestList : List Node → Bool → List Nat → List Nat → List ElemData × List Nat × List Nat
  | [], _, tabbed, checked => ([], tabbed, checked)
  | n :: rest, ai, tabbed, checked =>
    let (y1, t1, c1) := walk_latest n ai tabbed checked
    let (y2, t2, c2) := walk_latestList rest ai t1 c1
    (y1 ++ y2, t2, c2)
end

/-- The sort key `Number(el.getAttribute('tabindex')) || 0` used by
`sortByTabIndex`: `|| 0` maps NaN (and 0 itself) to 0. -/
def sortKey (el : ElemData) : Int :=
  match jsNumber el.tabindex with
  | none => 0
  | some k => k

/-- src/__tests__/tabbable.test.js lines 309-314 and src/unnamed/part_010 lines
155-160, `sortByTabIndex`: the comparator `bTabindex - aTabindex` passed to
`Array.prototype.sort`. -/
def sortByTabIndex (a b : ElemData) : Int :=
  sortKey b - sortKey a

/-- `sortByTabIndex a b <= 0`, i.e. the comparator says `a` may stay before `b`. -/
def sortLeq (a b : ElemData) : Bool :=
  sortByTabIndex a b ≤ 0

/-- Insertion step of the stable sort: an element sinks below every earlier
element the comparator orders strictly before it. -/
def insertStable (x : ElemData) : List ElemData → List ElemData
  | [] => [x]
  | y :: ys => if sortLeq x y then x :: y :: ys else y :: insertStable x ys

/-- `[...elements].sort(sortByTabIndex)`. ECMAScript requires
`Array.prototype.sort` to be stable, and for a consistent comparator every
stable sort computes the same list; a stable insertion sort realizes it. -/
def jsSortByTabIndex : List ElemData → List ElemData
  | [] => []
  | x :: xs => insertStable x (jsSortByTabIndex xs)

/-- src/exports/tabbable.js lines 98-160, `getTabbableElements` (early snapshot):
the raw walk, without sorting (the sort is commented out in that snapshot). -/
def getTabbableElements_exports (root : Node) : List ElemData :=
  (walk_exports root []).1

/-- src/unnamed/part_010 lines 134-145, `getTabbableElements`:
`[...walk(root, root, tabbableElements)].sort(sortByTabIndex)`. -/
def getTabbableElements_p010 (root : Node) : List ElemData :=
  jsSortByTabIndex (walk_p010 root []).1

/-- src/__tests__/tabbable.test.js lines 282-299, `getTabbableElements` (newest
variant): walk with the `checkedElements` map, then sort. -/
def getTabbableElements_latest (root : Node) (ancestorInert : Bool) : List ElemData :=
  jsSortByTabIndex (walk_latest root ancestorInert [] []).1

/-- All-defaults element: a visible, enabled element of the given tag with no
explicit attributes, occupying layout space, not overflowing. -/
def baseElem (i : Nat) (tg : String) : ElemData where
  id := i
  tag := tg
  tabindex := none
  disabled := false
  ariaDisabled := none
  inert := false
  href := none
  contenteditable := none
  controls := false
  checked := false
  typeAttr := none
  hasOffsetParent := true
  visibilityHidden := false
  visible := true
  takingUpSpace := true
  overflowTabbable := false

/-- A plain visible button. -/
def buttonData (i : Nat) : ElemData := baseElem i "button"

/-- A visible button with an explicit tabindex attribute. -/
def buttonDataTI (i : Nat) (v : String) : ElemData :=
  { baseElem i "button" with tabindex := some v }

/-- A childless element node. -/
def leafNode (d : ElemData) : Node := .mk d none [] []

/-- A plain div (id 0) wrapping the given children; the div itself is not
tabbable under any classifier variant. -/
def divRoot (children : List Node) : Node := .mk (baseElem 0 "div") none [] children

/-- `this.tabDirection`. -/
inductive TabDirection where
  | forward
  | backward
deriving DecidableEq, Repr

/-- The two fields of a KeyboardEvent that the handlers read. -/
structure KeyEvent where
  key : String
  shiftKey : Bool
deriving DecidableEq, Repr

/-- The mutable per-trap state of `class Trap` (src/exports/focus-hunter.js and
src/unnamed/part_010). `id` models the identity of the Trap object itself and
`rootId` the identity of `this.rootElement`; element references are stored as
`ElemData` whose `id` is the referenced element. `previousFocus` exists only in
the exports snapshot and is ignored by the part_010 functions. -/
structure Trap where
  id : Nat
  rootId : Nat
  preventScroll : Bool
  tabDirection : TabDirection
  currentFocus : Option ElemData
  initialFocus : Option ElemData
  previousFocus : Option ElemData
deriving DecidableEq, Repr

/-- The process-wide `window.focusHunter` registry: `trapStack` and
`rootElementStack` are JS `Set`s iterated in insertion order, modelled as lists
of identities. -/
structure World where
  trapStack : List Nat
  rootStack : List Nat
deriving DecidableEq, Repr

/-- Observable side effects of one handler invocation: events dispatched on
elements, listeners attached/detached on the document, `.focus()` calls
`(elementId, preventScroll)`, whether `event.preventDefault()` ran, and whether
a `setTimeout(() => this.resetFocus())` was scheduled. -/
structure Effects where
  events : List (Nat × String)
  addedListeners : List String
  removedListeners : List String
  focusCalls : List (Nat × Bool)
  prevented : Bool
  deferredReset : Bool
deriving DecidableEq, Repr

/-- No observable effect. -/
def Effects.noop : Effects :=
  { events := [], addedListeners := [], removedListeners := [], focusCalls := [],
    prevented := false, deferredReset := false }

/-- JS `Set.prototype.add`: append iff not already a member. -/
def setAdd (l : List Nat) (x : Nat) : List Nat :=
  if l.contains x then l else l ++ [x]

/-- JS `Set.prototype.delete`: remove the member if present. -/
def setDelete (l : List Nat) (x : Nat) : List Nat :=
  l.erase x

/-- `Trap.isActive` (identical in every snapshot): iterate `trapStack.values()`
keeping the last value, and compare it to `this`. -/
def isActive (w : World) (t : Trap) : Bool :=
  w.trapStack.getLast? == some t.id

/-- `Trap.start` (src/exports/focus-hunter.js lines 89-102, identical in
src/unnamed/part_010 lines 285-298): no-op when this trap or its root is
already stacked; otherwise push on both stacks, dispatch `focus-trap-start`,
attach the three document listeners, and snapshot the deepest active element
`activeEl` into `initialFocus` and `currentFocus`. -/
def Trap.start (t : Trap) (w : World) (activeEl : Option ElemData) : World × Trap × Effects :=
  if w.trapStack.contains t.id || w.rootStack.contains t.rootId then (w, t, Effects.noop)
  else
    ({ trapStack := setAdd w.trapStack t.id, rootStack := setAdd w.rootStack t.rootId },
     { t with initialFocus := activeEl, currentFocus := activeEl },
     { events := [(t.rootId, "focus-trap-start")],
       addedListeners := ["focusin", "keydown", "keyup"],
       removedListeners := [], focusCalls := [], prevented := false, deferredReset := false })

/-- `Trap.stop` (src/exports/focus-hunter.js lines 107-120, identical in
src/unnamed/part_010 lines 303-316): always delete from both stacks, clear
`currentFocus`, dispatch `focus-trap-end`, detach the listeners, clear
`initialFocus`. -/
def Trap.stop (t : Trap) (w : World) : World × Trap × Effects :=
  ({ trapStack := setDelete w.trapStack t.id, rootStack := setDelete w.rootStack t.rootId },
   { t with currentFocus := none, initialFocus := none },
   { events := [(t.rootId, "focus-trap-end")],
     addedListeners := [], removedListeners := ["focusin", "keydown", "keyup"],
     focusCalls := [], prevented := false, deferredReset := false })

/-- `Trap.handleKeyUp` (src/exports/focus-hunter.js lines 277-279, identical in
src/unnamed/part_010 lines 433-435): unconditionally reset `tabDirection`. -/
def Trap.handleKeyUp (t : Trap) (ev : KeyEvent) : Trap :=
  match ev with
  | _ => { t with tabDirection := .forward }

/-- `Trap.possiblyHasTabbableChildren` (src/exports/focus-hunter.js lines
210-216): audio, video and iframe elements, or any element with a `controls`
attribute. -/
def possiblyHasTabbableChildren (el : ElemData) : Bool :=
  ["audio", "video", "iframe"].contains el.tag || el.controls

/-- `el === currentFocus`: JS identity comparison against a possibly absent
focused element. -/
def elemEq (cur : Option ElemData) (d : ElemData) : Bool :=
  match cur with
  | none => false
  | some a => d.id == a.id

/-- `Array.prototype.findIndex` (auxiliary, carrying the index reached). -/
def jsFindIndexFrom (p : ElemData → Bool) : List ElemData → Nat → Int
  | [], _ => -1
  | x :: xs, i => if p x then (i : Int) else jsFindIndexFrom p xs (i + 1)

/-- `Array.prototype.findIndex`: the first matching index, or -1. -/
def jsFindIndex (p : ElemData → Bool) (l : List ElemData) : Int :=
  jsFindIndexFrom p l 0

/-- The `focus()` call emitted by `x?.focus({ preventScroll })` when `x` may be
absent. -/
def focusOf : Option ElemData → Bool → List (Nat × Bool)
  | none, _ => []
  | some e, ps => [(e.id, ps)]

/-- The index-stepping block shared by both `adjustFocus` variants:
`addition = ±1`, wrap to 0 past the end, wrap to `length - 1` below 0. -/
def stepIndex (dir : TabDirection) (i : Int) (len : Nat) : Int :=
  let addition : Int := if dir = .forward then 1 else -1
  if i + addition ≥ (len : Int) then 0
  else if i + addition < 0 then (len : Int) - 1
  else i + addition

/-- `Trap.adjustFocus` (src/unnamed/part_010 lines 399-427): when active,
recompute the tabbable sequence, locate the deepest active element in it; if
absent focus the first element, otherwise step the index with wrapping and
focus the element at the new index. -/
def adjustFocus_p010 (w : World) (t : Trap) (root : Node) (activeEl : Option ElemData) : Trap × Effects :=
  if !isActive w t then (t, Effects.noop)
  else
    let tabs := getTabbableElements_p010 root
    let start := tabs.head?
    let i := jsFindIndex (elemEq activeEl) tabs
    if i = -1 then
      ({ t with currentFocus := start },
       { Effects.noop with focusCalls := focusOf start t.preventScroll })
    else
      let j := stepIndex t.tabDirection i tabs.length
      let next := tabs.get? j.toNat
      ({ t with currentFocus := next },
       { Effects.noop with focusCalls := focusOf next t.preventScroll })

/-- `Trap.handleKeyDown` (src/unnamed/part_010 lines 384-397): ignore non-Tab
keys and inactive traps; set `tabDirection` from the shift modifier, prevent the
default action, and adjust focus. -/
def handleKeyDown_p010 (t : Trap) (w : World) (ev : KeyEvent) (root : Node) (activeEl : Option ElemData) : Trap × Effects :=
  if ev.key ≠ "Tab" then (t, Effects.noop)
  else if !isActive w t then (t, Effects.noop)
  else
    let t1 := { t with tabDirection := if ev.shiftKey then .backward else .forward }
    let (t2, eff) := adjustFocus_p010 w t1 root activeEl
    (t2, { eff with prevented := true })

/-- `Trap.resetFocus` (src/unnamed/part_010 lines 345-371): when active and the
root does not contain focus (`:focus-within`, supplied as `focusWithin`), focus
the first (forward) or last (backward) tabbable element if one exists. -/
def resetFocus_p010 (w : World) (t : Trap) (root : Node) (focusWithin : Bool) : Trap × Effects :=
  if !isActive w t then (t, Effects.noop)
  else if focusWithin then (t, Effects.noop)
  else
    let tabs := getTabbableElements_p010 root
    let target := if t.tabDirection = .forward then tabs.head? else tabs.getLast?
    match target with
    | none => (t, Effects.noop)
    | some e => ({ t with currentFocus := some e },
                 { Effects.noop with focusCalls := [(e.id, t.preventScroll)] })

/-- `Trap.handleFocusIn` (src/unnamed/part_010 lines 376-379): reset focus when
active. -/
def handleFocusIn_p010 (t : Trap) (w : World) (root : Node) (focusWithin : Bool) : Trap × Effects :=
  if !isActive w t then (t, Effects.noop)
  else resetFocus_p010 w t root focusWithin

/-- `Trap.adjustFocus` (src/exports/focus-hunter.js lines 221-271): like the
part_010 variant but (a) records `previousFocus` and returns early when the
focused element may host tabbable controls, (b) on backward traversal returns
early without `preventDefault` or any `focus()` call (the guard around that
return is commented out in the source, leaving an unconditional return), and
(c) calls `preventDefault` itself rather than in `handleKeyDown`. -/
def adjustFocus_exports (w : World) (t : Trap) (root : Node) (activeEl : Option ElemData) : Trap × Effects :=
  if !isActive w t then (t, Effects.noop)
  else
    let t0 := { t with previousFocus := activeEl }
    if (match activeEl with | some a => possiblyHasTabbableChildren a | none => false) then (t0, Effects.noop)
    else
      let tabs := getTabbableElements_exports root
      let start := tabs.head?
      let i := jsFindIndex (elemEq activeEl) tabs
      if i = -1 then
        ({ t0 with currentFocus := start },
         { Effects.noop with prevented := true, focusCalls := focusOf start t0.preventScroll })
      else
        let j := stepIndex t0.tabDirection i tabs.length
        let next := tabs.get? j.toNat
        if t0.tabDirection = .backward then (t0, Effects.noop)
        else
          ({ t0 with currentFocus := next },
           { Effects.noop with prevented := true, focusCalls := focusOf next t0.preventScroll })

/-- `Trap.handleKeyDown` (src/exports/focus-hunter.js lines 193-205): ignore
non-Tab keys and inactive traps; set `tabDirection`, adjust focus, and schedule
a deferred `resetFocus` on the next event-loop turn. -/
def handleKeyDown_exports (t : Trap) (w : World) (ev : KeyEvent) (root : Node) (activeEl : Option ElemData) : Trap × Effects :=
  if ev.key ≠ "Tab" then (t, Effects.noop)
  else if !isActive w t then (t, Effects.noop)
  else
    let t1 := { t with tabDirection := if ev.shiftKey then .backward else .forward }
    let (t2, eff) := adjustFocus_exports w t1 root activeEl
    (t2, { eff with deferredReset := true })

/-- `Trap.resetFocus` (src/exports/focus-hunter.js lines 149-180): when active,
first refresh `currentFocus` from the deepest active element, then — unless the
root contains focus — focus the first or last tabbable element by direction. -/
def resetFocus_exports (w : World) (t : Trap) (root : Node) (activeEl : Option ElemData) (focusWithin : Bool) : Trap × Effects :=
  if !isActive w t then (t, Effects.noop)
  else
    let t0 := match activeEl with
      | some a => { t with currentFocus := some a }
      | none => t
    if focusWithin then (t0, Effects.noop)
    else
      let tabs := getTabbableElements_exports root
      let target := if t0.tabDirection = .forward then tabs.head? else tabs.getLast?
      match target with
      | none => (t0, Effects.noop)
      | some e => ({ t0 with currentFocus := some e },
                   { Effects.noop with focusCalls := [(e.id, t0.preventScroll)] })

/-- `Trap.handleFocusIn` (src/exports/focus-hunter.js lines 185-188): reset
focus when active. -/
def handleFocusIn_exports (t : Trap) (w : World) (root : Node) (activeEl : Option ElemData) (focusWithin : Bool) : Trap × Effects :=
  if !isActive w t then (t, Effects.noop)
  else resetFocus_exports w t root activeEl focusWithin

/-- A visible anchor element with the given href attribute. -/
def anchorData (i : Nat) (h : Option String) : ElemData :=
  { baseElem i "a" with href := h }

/-- The focus target the claim C1 designates inside the freshly computed
tabbable sequence (modelled from the claim wording, to be compared with the
source's `adjustFocus`): from the last element a forward Tab wraps to index 0,
from the first element a backward (Shift) Tab wraps to the last index, and
otherwise the index steps by one in the tab direction. -/
def claimTargetIndex (shift : Bool) (i len : Nat) : Nat :=
  if shift then (if i = 0 then len - 1 else i - 1)
  else (if i = len - 1 then 0 else i + 1)

/-- A sample trap object (identity 1, guarding root element 11). -/
def trapA : Trap :=
  { id := 1, rootId := 11, preventScroll := false, tabDirection := TabDirection.forward,
    currentFocus := none, initialFocus := none, previousFocus := none }

/-- A second sample trap object (identity 2, guarding root element 22). -/
def trapB : Trap :=
  { trapA with id := 2, rootId := 22 }

/-- The registry before any trap has started. -/
def emptyWorld : World :=
  { trapStack := [], rootStack := [] }

/-- A registry in which `trapA` is the only (hence topmost) trap. -/
def worldA : World :=
  { trapStack := [1], rootStack := [11] }

/-- A root holding two plain buttons (ids 21 and 22). -/
def rootTwoButtons : Node :=
  divRoot [leafNode (buttonData 21), leafNode (buttonData 22)]

/-- A root with no tabbable descendants (an empty div). -/
def rootEmpty : Node :=
  divRoot []

/-- C9: while a trap's listeners are attached, a key-up of any key (not only Tab
or Shift) resets `tabDirection` to forward, changing nothing else; the key-up
handler inspects neither the released key nor whether the trap is the active
one (its result does not depend on the event, and it consults no trap-stack
state at all). -/
theorem c9_handleKeyUp_resets_direction_for_any_key :
    ∀ (t : Trap) (e1 e2 : KeyEvent),
      Trap.handleKeyUp t e1 = { t with tabDirection := TabDirection.forward } ∧
      Trap.handleKeyUp t e1 = Trap.handleKeyUp t e2 := by
  intro t e1 e2
  exact ⟨rfl, rfl⟩

/-- C8 counterexample: in the src/exports/tabbable.js snapshot, a plain visible
button is tabbable, but setting `aria-disabled="true"` on it makes `isTabbable`
return false — so the presence of `aria-disabled` does change the result there,
contrary to the claim. -/
theorem c8_counterexample :
    isTabbable_exports (buttonData 1) = true ∧
    isTabbable_exports { buttonData 1 with ariaDisabled := some "true" } = false := by
  exact ⟨by decide, by decide⟩

/-- C8 amended: in the newest classifier (src/__tests__/tabbable.test.js), the
`aria-disabled` attribute never changes the result of `isTabbable`; the earlier
src/exports/tabbable.js snapshot instead returns false whenever `aria-disabled`
is present with any value other than the literal string `false`. -/
theorem c8_amended_aria_disabled :
    (∀ (el : ElemData) (v : Option String) (ai : Bool),
      isTabbable_latest { el with ariaDisabled := v } ai = isTabbable_latest el ai) ∧
    (∀ (el : ElemData) (v : String), v ≠ "false" →
      isTabbable_exports { el with ariaDisabled := some v } = false) := by
  constructor
  · intro el v ai
    rfl
  · intro el v hv
    simp only [isTabbable_exports]
    split
    · rfl
    · split
      · rfl
      · split
        · rfl
        · rename_i h1 h2 h3
          exfalso
          apply h3
          simp [hv]

/-- C6 counterexample: in the src/exports/tabbable.js snapshot the tabindex test
compares against the literal string `-1`, so a visible button with
`tabindex="-2"` — an explicit numeric tabindex ≤ -1, for which the claim
requires `isTabbable` to return false — is tabbable (via the has-tabindex
rule). -/
theorem c6_counterexample :
    jsNumber (some "-2") = some (-2) ∧
    isTabbable_exports (buttonDataTI 1 "-2") = true := by
  exact ⟨by decide, by decide⟩

/-- C6 amended: in the newest classifier (src/__tests__/tabbable.test.js lines
217-224), an explicit tabindex attribute that is non-numeric or whose numeric
value is ≤ -1 makes `isTabbable` return false. (The src/exports/tabbable.js
snapshot excludes only the literal string `-1`, and the part_004 snapshot does
not exclude non-numeric values.) -/
theorem c6_amended_latest_rejects_bad_tabindex (el : ElemData) (ai : Bool) (s : String)
    (hti : el.tabindex = some s)
    (hbad : jsNumberOfString s = none ∨ ∃ k : Int, jsNumberOfString s = some k ∧ k ≤ -1) :
    isTabbable_latest el ai = false := by
  have hcond : (el.tabindex.isSome && ((jsNumber el.tabindex).isNone || jsLeNegOne el.tabindex)) = true := by
    rcases hbad with hnan | ⟨k, hk, hkle⟩
    · simp [hti, jsNumber, jsLeNegOne, hnan]
    · simp [hti, jsNumber, jsLeNegOne, hk, hkle]
  simp only [isTabbable_latest, hcond, if_true]

/-- C6 amended witness: a visible button with the non-numeric tabindex `abc` is
not tabbable under the newest classifier. -/
theorem c6_amended_witness :
    isTabbable_latest (buttonDataTI 1 "abc") false = false := by
  exact c6_amended_latest_rejects_bad_tabindex (buttonDataTI 1 "abc") false "abc" (by decide)
    (Or.inl (by decide))

/-- C7 counterexample: under the newest classifier (src/__tests__/
tabbable.test.js lines 247-251, which tests `!el.getAttribute("href")`), an
otherwise-tabbable visible anchor with `href=""` is NOT tabbable, contrary to
the claim that an empty-but-present href keeps the anchor tabbable. -/
theorem c7_counterexample :
    isTabbable_latest (anchorData 1 (some "")) false = false := by
  decide

set_option maxHeartbeats 1000000 in
/-- C7 amended: in the part_004 composed-offset-position classifier (the
variant whose href test is attribute presence, src/unnamed/part_004 lines
217-220), anchors and areas without an href attribute are not tabbable and an
otherwise-tabbable anchor with an empty-but-present href is tabbable; in the
newest classifier the href test is the attribute's value, so an anchor whose
href is absent or empty is not tabbable. -/
theorem c7_amended_anchor_href_rules :
    (∀ el : ElemData, (el.tag = "a" ∨ el.tag = "area") → el.href = none →
      isTabbable_offset el = false) ∧
    (∀ el : ElemData, el.tag = "a" → el.href = some "" →
      el.disabled = false → el.hasOffsetParent = true → el.visibilityHidden = false →
      jsLeNegOne el.tabindex = false →
      isTabbable_offset el = true) ∧
    (∀ (el : ElemData) (ai : Bool), el.tag = "a" → (el.href = none ∨ el.href = some "") →
      isTabbable_latest el ai = false) := by
  refine ⟨?_, ?_, ?_⟩
  · intro el htag hhref
    simp only [isTabbable_offset]
    split
    · rfl
    · split
      · rfl
      · split
        · rfl
        · split
          · rfl
          · split
            · rfl
            · rename_i h5
              exfalso
              apply h5
              rcases htag with h | h <;> simp [h, hhref]
  · intro el htag hhref hdis hoff hvis hti
    simp only [isTabbable_offset, htag, hhref, hdis, hoff, hvis, hti]
    simp only [Bool.false_eq_true, if_false, Option.isSome_some, Bool.not_true, Bool.and_false,
      Bool.not_false]
    split
    · simp_all
    · split
      · simp_all
      · split
        · rfl
        · split
          · rfl
          · decide
  · intro el ai htag hhref
    have hcond : (el.tag = "a" && (el.href = none || el.href = some "")) = true := by
      rcases hhref with h | h <;> simp [htag, h]
    simp only [isTabbable_latest, hcond]
    split
    · rfl
    · split
      · rfl
      · split
        · rfl
        · split
          · rfl
          · split
            · rfl
            · rfl

/-- C7 amended witness: concrete instances of the three amended conjuncts — an
area without href and an anchor with empty href under the part_004 classifier,
and an hrefless anchor under the newest classifier. -/
theorem c7_amended_witness :
    isTabbable_offset { baseElem 2 "area" with href := none } = false ∧
    isTabbable_offset (anchorData 3 (some "")) = true ∧
    isTabbable_latest (anchorData 4 none) false = false := by
  refine ⟨?_, ?_, ?_⟩
  · exact c7_amended_anchor_href_rules.1 _ (Or.inr (by decide)) (by decide)
  · exact c7_amended_anchor_href_rules.2.1 _ (by decide) (by decide) (by decide) (by decide)
      (by decide) (by decide)
  · exact c7_amended_anchor_href_rules.2.2 _ false (by decide) (Or.inl (by decide))

/-- `Trap.start` on a trap whose identity and root are not yet stacked pushes
both identities (in insertion order), snapshots the active element, emits
`focus-trap-start` and attaches the three listeners. -/
theorem start_fresh (w : World) (t : Trap) (a : Option ElemData)
    (h1 : t.id ∉ w.trapStack) (h2 : t.rootId ∉ w.rootStack) :
    t.start w a =
      ({ trapStack := w.trapStack ++ [t.id], rootStack := w.rootStack ++ [t.rootId] },
       { t with initialFocus := a, currentFocus := a },
       { events := [(t.rootId, "focus-trap-start")],
         addedListeners := ["focusin", "keydown", "keyup"],
         removedListeners := [], focusCalls := [], prevented := false,
         deferredReset := false }) := by
  simp [Trap.start, setAdd, List.contains, h1, h2]

/-- C3: starting a trap whose root element is already in the root-element stack
or which is itself already in the trap stack changes nothing: the registry, the
trap's fields, the event log, the listener sets and the focus snapshot are all
untouched, and every trap's `isActive` answer (in particular the originally
active trap's) is unchanged. -/
theorem c3_start_noop_when_guarded (w : World) (t : Trap) (activeEl : Option ElemData)
    (h : t.id ∈ w.trapStack ∨ t.rootId ∈ w.rootStack) :
    t.start w activeEl = (w, t, Effects.noop) ∧
    (∀ u : Trap, isActive (t.start w activeEl).1 u = isActive w u) := by
  have hcond : (w.trapStack.contains t.id || w.rootStack.contains t.rootId) = true := by
    rcases h with h | h <;> simp [List.contains, h]
  constructor
  · unfold Trap.start
    rw [if_pos hcond]
  · intro u
    unfold Trap.start
    rw [if_pos hcond]

/-- C3 witness: starting `trapA` again while it is already the stacked trap is a
no-op, and the stacks stay `worldA`. -/
theorem c3_witness :
    trapA.start worldA none = (worldA, trapA, Effects.noop) := by
  exact (c3_start_noop_when_guarded worldA trapA none (Or.inl (by decide))).1

/-- C10: every `stop()` call — also on a trap that never started — dispatches
`focus-trap-end` on the root element, removes the three listeners and clears
`currentFocus` and `initialFocus`; when the trap's identity and root are not in
the stacks the stacks are left unchanged; and a repeated `stop()` leaves the
registry state identical while emitting the event again. -/
theorem c10_stop_always_clears_and_emits (w : World) (t : Trap)
    (hnd : w.trapStack.Nodup) (hrd : w.rootStack.Nodup) :
    ((t.stop w).2.2.events = [(t.rootId, "focus-trap-end")]) ∧
    ((t.stop w).2.1.currentFocus = none) ∧
    ((t.stop w).2.1.initialFocus = none) ∧
    ((t.stop w).2.2.removedListeners = ["focusin", "keydown", "keyup"]) ∧
    (t.id ∉ w.trapStack → t.rootId ∉ w.rootStack → (t.stop w).1 = w) ∧
    (((t.stop w).2.1.stop (t.stop w).1).1 = (t.stop w).1) ∧
    (((t.stop w).2.1.stop (t.stop w).1).2.2.events = [(t.rootId, "focus-trap-end")]) := by
  refine ⟨rfl, rfl, rfl, rfl, ?_, ?_, rfl⟩
  · intro hm hr
    simp [Trap.stop, setDelete, List.erase_of_not_mem hm, List.erase_of_not_mem hr]
  · simp [Trap.stop, setDelete, List.erase_of_not_mem (List.Nodup.not_mem_erase hnd),
      List.erase_of_not_mem (List.Nodup.not_mem_erase hrd)]

/-- C10 witness: stopping the never-started `trapB` in `worldA` emits the event,
clears the focus fields, and leaves the stacks untouched; stopping again yields
the same registry and emits again. -/
theorem c10_witness :
    (trapB.stop worldA).2.2.events = [(22, "focus-trap-end")] ∧
    (trapB.stop worldA).2.1.currentFocus = none ∧
    (trapB.stop worldA).1 = worldA ∧
    ((trapB.stop worldA).2.1.stop (trapB.stop worldA).1).1 = (trapB.stop worldA).1 := by
  have h := c10_stop_always_clears_and_emits worldA trapB (by decide) (by decide)
  exact ⟨h.1, h.2.1, h.2.2.2.2.1 (by decide) (by decide), h.2.2.2.2.2.1⟩

/-- C2: starting fresh traps T1 then T2 on a shared registry makes exactly the
most recently pushed trap active: T2 reports active, T1 does not, T1 reacts to
neither key-down nor focus-in events (both handlers return the trap unchanged
with no effects), stopping T2 makes the unmodified T1 active again, and any two
traps the registry reports active have the same identity. -/
theorem c2_topmost_trap_wins (w : World) (t1 t2 : Trap) (a1 a2 : Option ElemData)
    (hid : t1.id ≠ t2.id) (hroot : t1.rootId ≠ t2.rootId)
    (h1 : t1.id ∉ w.trapStack) (h2 : t2.id ∉ w.trapStack)
    (hr1 : t1.rootId ∉ w.rootStack) (hr2 : t2.rootId ∉ w.rootStack) :
    ∀ w2 t1s t2s, (t1.start w a1).2.1 = t1s → (t2.start (t1.start w a1).1 a2).1 = w2 →
      (t2.start (t1.start w a1).1 a2).2.1 = t2s →
      isActive w2 t2s = true ∧
      isActive w2 t1s = false ∧
      (∀ (ev : KeyEvent) (root : Node) (ae : Option ElemData),
        handleKeyDown_exports t1s w2 ev root ae = (t1s, Effects.noop)) ∧
      (∀ (root : Node) (ae : Option ElemData) (fw : Bool),
        handleFocusIn_exports t1s w2 root ae fw = (t1s, Effects.noop)) ∧
      isActive (t2s.stop w2).1 t1s = true ∧
      (∀ u v : Trap, isActive w2 u = true → isActive w2 v = true → u.id = v.id) := by
  intro w2 t1s t2s ht1s hw2 ht2s
  rw [start_fresh w t1 a1 h1 hr1] at ht1s hw2 ht2s
  have h2b : t2.id ∉ w.trapStack ++ [t1.id] := by
    simp [h2, Ne.symm hid]
  have hr2b : t2.rootId ∉ w.rootStack ++ [t1.rootId] := by
    simp [hr2, Ne.symm hroot]
  rw [start_fresh _ t2 a2 h2b hr2b] at hw2 ht2s
  subst ht1s hw2 ht2s
  have hne : t2.id ≠ t1.id := Ne.symm hid
  refine ⟨?_, ?_, ?_, ?_, ?_, ?_⟩
  · simp [isActive]
  · simp [isActive, hne]
  · intro ev root ae
    by_cases hk : ev.key = "Tab"
    · simp [handleKeyDown_exports, hk, isActive, hne]
    · simp [handleKeyDown_exports, hk]
  · intro root ae fw
    simp [handleFocusIn_exports, isActive, hne]
  · have herase : ((w.trapStack ++ [t1.id, t2.id]).erase t2.id) = w.trapStack ++ [t1.id] := by
      rw [List.erase_append_right _ (by simp [h2, hne])]
      simp [List.erase_cons, hid]
    simp [Trap.stop, setDelete, isActive, herase]
  · intro u v hu hv
    simp only [isActive] at hu hv
    simp only [List.getLast?_append, List.getLast?_cons_cons, List.getLast?_singleton,
      Option.or_some, beq_iff_eq, Option.some.injEq] at hu hv
    rw [← hu, ← hv]

/-- C2 witness: in the empty registry, starting `trapA` then `trapB` makes the
started `trapB` active and the started `trapA` inactive and unreactive to a Tab
key-down, and stopping the started `trapB` makes the started `trapA` active
again. -/
theorem c2_witness :
    isActive (trapB.start (trapA.start emptyWorld none).1 none).1
      (trapB.start (trapA.start emptyWorld none).1 none).2.1 = true ∧
    isActive (trapB.start (trapA.start emptyWorld none).1 none).1
      (trapA.start emptyWorld none).2.1 = false ∧
    handleKeyDown_exports (trapA.start emptyWorld none).2.1
      (trapB.start (trapA.start emptyWorld none).1 none).1
      { key := "Tab", shiftKey := false } rootTwoButtons none
      = ((trapA.start emptyWorld none).2.1, Effects.noop) ∧
    isActive ((trapB.start (trapA.start emptyWorld none).1 none).2.1.stop
        (trapB.start (trapA.start emptyWorld none).1 none).1).1
      (trapA.start emptyWorld none).2.1 = true := by
  have h := c2_topmost_trap_wins emptyWorld trapA trapB none none (by decide) (by decide)
    (by simp [emptyWorld]) (by simp [emptyWorld]) (by simp [emptyWorld]) (by simp [emptyWorld])
    _ _ _ rfl rfl rfl
  exact ⟨h.1, h.2.1, h.2.2.1 { key := "Tab", shiftKey := false } rootTwoButtons none,
    h.2.2.2.2.1⟩

/-- C5: when the root subtree has zero tabbable elements, a Tab or Shift+Tab
key-down on the active part_010 trap performs no `focus()` call (neither in the
key-down/adjust path nor in the focus-reset path) and runs to completion
without error (the model is total); so the document's active element is left
untouched. -/
theorem c5_empty_sequence_never_focuses (w : World) (t : Trap) (root : Node)
    (hact : isActive w t = true)
    (hempty : getTabbableElements_p010 root = []) :
    (∀ (ev : KeyEvent) (activeEl : Option ElemData),
      (handleKeyDown_p010 t w ev root activeEl).2.focusCalls = []) ∧
    (∀ activeEl : Option ElemData,
      (adjustFocus_p010 w t root activeEl).2.focusCalls = []) ∧
    (∀ fw : Bool, (resetFocus_p010 w t root fw).2.focusCalls = []) := by
  have hadj : ∀ (t' : Trap) (ae : Option ElemData),
      (adjustFocus_p010 w t' root ae).2.focusCalls = [] := by
    intro t' ae
    cases ae <;> by_cases ha : isActive w t' <;>
      simp [adjustFocus_p010, ha, hempty, jsFindIndex, jsFindIndexFrom, focusOf, Effects.noop]
  refine ⟨?_, ?_, ?_⟩
  · intro ev activeEl
    by_cases hk : ev.key = "Tab"
    · simp only [handleKeyDown_p010, hk]
      simp only [hadj]
      split
      · rfl
      · split <;> rfl
    · simp [handleKeyDown_p010, hk, Effects.noop]
  · intro activeEl
    exact hadj t activeEl
  · intro fw
    by_cases hfw : fw <;>
      simp [resetFocus_p010, hact, hfw, hempty, Effects.noop]

/-- C5 witness: with the active sample trap on an empty div, a forward Tab
key-down and a focus reset both make no `focus()` call. -/
theorem c5_witness :
    (handleKeyDown_p010 trapA worldA { key := "Tab", shiftKey := false } rootEmpty none).2.focusCalls = [] ∧
    (resetFocus_p010 worldA trapA rootEmpty false).2.focusCalls = [] := by
  have h := c5_empty_sequence_never_focuses worldA trapA rootEmpty (by decide)
    (by simp [getTabbableElements_p010, walk_p010, walk_p010List, rootEmpty, divRoot, baseElem,
      isTabbable_p010, jsSortByTabIndex, jsLeNegOne, jsNumber])
  exact ⟨h.1 { key := "Tab", shiftKey := false } none, h.2.2 false⟩

/-- The wrapping index arithmetic of `adjustFocus` coincides with the index the
claim designates, whenever the found index is in range. -/
theorem stepIndex_eq_claimTargetIndex (shift : Bool) (i len : Nat) (h : i < len) :
    (stepIndex (if shift then TabDirection.backward else TabDirection.forward) (i : Int) len).toNat
      = claimTargetIndex shift i len := by
  cases shift
  · simp only [Bool.false_eq_true, if_false, stepIndex, claimTargetIndex, reduceCtorEq, reduceIte]
    by_cases hc : (i : Int) + 1 ≥ (len : Int)
    · rw [if_pos hc, if_pos (by omega : i = len - 1)]
      rfl
    · rw [if_neg hc, if_neg (by omega : ¬ (i : Int) + 1 < 0), if_neg (by omega : ¬ i = len - 1)]
      omega
  · simp only [if_true, stepIndex, claimTargetIndex, reduceCtorEq, reduceIte]
    rw [if_neg (by omega : ¬ (i : Int) + -1 ≥ (len : Int))]
    by_cases hz : i = 0
    · rw [if_pos (by omega : (i : Int) + -1 < 0), if_pos hz]
      omega
    · rw [if_neg (by omega : ¬ (i : Int) + -1 < 0), if_neg hz]
      omega

/-- The claim's target index is always in range when the found index is. -/
theorem claimTargetIndex_lt (shift : Bool) (i len : Nat) (h : i < len) :
    claimTargetIndex shift i len < len := by
  cases shift <;> simp only [claimTargetIndex, if_true, if_false] <;> split_ifs <;> omega

/-- C1 amended: for the part_010 `Trap` (src/unnamed/part_010 lines 384-427),
the claim holds as stated: on a Tab key-down for an active trap whose root has
at least one tabbable element and whose deepest focused element sits at index
`i` of the freshly computed sequence, focus moves (with one `focus()` call,
honoring `preventScroll`) to the first element when tabbing forward from the
last, to the last when tabbing backward from the first, and to index `i ± 1`
otherwise; `currentFocus` records the same element. The exports snapshot
deviates on backward traversal (see the counterexample) and when the focused
element may host tabbable controls. -/
theorem c1_amended_p010_tab_steps_with_wrap (w : World) (t : Trap) (root : Node)
    (ev : KeyEvent) (a : ElemData) (i : Nat)
    (hkey : ev.key = "Tab")
    (hact : isActive w t = true)
    (hfind : jsFindIndex (elemEq (some a)) (getTabbableElements_p010 root) = (i : Int))
    (hlen : i < (getTabbableElements_p010 root).length) :
    ((handleKeyDown_p010 t w ev root (some a)).1.currentFocus
        = (getTabbableElements_p010 root).get?
            (claimTargetIndex ev.shiftKey i (getTabbableElements_p010 root).length)) ∧
    ((handleKeyDown_p010 t w ev root (some a)).2.focusCalls
        = focusOf ((getTabbableElements_p010 root).get?
            (claimTargetIndex ev.shiftKey i (getTabbableElements_p010 root).length)) t.preventScroll) ∧
    (((getTabbableElements_p010 root).get?
        (claimTargetIndex ev.shiftKey i (getTabbableElements_p010 root).length)).isSome = true) := by
  have hact1 : isActive w { t with tabDirection := if ev.shiftKey then TabDirection.backward else TabDirection.forward } = true := hact
  have hkey2 : ¬ ev.key ≠ "Tab" := by
    simp [hkey]
  have key : adjustFocus_p010 w { t with tabDirection := if ev.shiftKey then TabDirection.backward else TabDirection.forward } root (some a)
      = ({ t with
            tabDirection := if ev.shiftKey then TabDirection.backward else TabDirection.forward,
            currentFocus := (getTabbableElements_p010 root).get?
              (claimTargetIndex ev.shiftKey i (getTabbableElements_p010 root).length) },
         { Effects.noop with focusCalls := focusOf ((getTabbableElements_p010 root).get?
              (claimTargetIndex ev.shiftKey i (getTabbableElements_p010 root).length)) t.preventScroll }) := by
    simp only [adjustFocus_p010, hact1, Bool.not_true, Bool.false_eq_true, if_false, hfind]
    rw [if_neg (by omega : ¬ ((i : Int) = -1))]
    rw [stepIndex_eq_claimTargetIndex ev.shiftKey i _ hlen]
  have hsome : (((getTabbableElements_p010 root).get?
      (claimTargetIndex ev.shiftKey i (getTabbableElements_p010 root).length)).isSome = true) := by
    rw [List.get?_eq_get (claimTargetIndex_lt ev.shiftKey i _ hlen)]
    rfl
  refine ⟨?_, ?_, hsome⟩
  · simp only [handleKeyDown_p010, hkey2, if_false, hact, Bool.not_true, Bool.false_eq_true, key]
  · simp only [handleKeyDown_p010, hkey2, if_false, hact, Bool.not_true, Bool.false_eq_true, key]

/-- C1 amended witness: with the active sample trap on a root with two buttons
(ids 21, 22) and focus on the last one, a forward Tab wraps: the single focus
call targets the first button (id 21) and `currentFocus` becomes it. -/
theorem c1_amended_witness :
    (handleKeyDown_p010 trapA worldA { key := "Tab", shiftKey := false } rootTwoButtons
      (some (buttonData 22))).1.currentFocus = some (buttonData 21) ∧
    (handleKeyDown_p010 trapA worldA { key := "Tab", shiftKey := false } rootTwoButtons
      (some (buttonData 22))).2.focusCalls = [(21, false)] := by
  have htabs : getTabbableElements_p010 rootTwoButtons = [buttonData 21, buttonData 22] := by
    simp [getTabbableElements_p010, walk_p010, walk_p010List, rootTwoButtons, divRoot, leafNode,
      buttonData, baseElem, isTabbable_p010, jsSortByTabIndex, insertStable, sortLeq,
      sortByTabIndex, sortKey, jsLeNegOne, jsNumber]
  have h := c1_amended_p010_tab_steps_with_wrap worldA trapA rootTwoButtons
    { key := "Tab", shiftKey := false } (buttonData 22) 1 rfl (by decide)
    (by rw [htabs]; decide) (by rw [htabs]; decide)
  rw [htabs] at h
  refine ⟨?_, ?_⟩
  · rw [h.1]
    decide
  · rw [h.2.1]
    decide

/-- C1 counterexample: for the exports `Trap.adjustFocus`
(src/exports/focus-hunter.js lines 221-271), a Shift+Tab key-down on the active
sample trap with focus on the first of two plain buttons — where the claim
requires focus to move to the last element (one focus call on id 22) — performs
no `focus()` call at all and leaves `currentFocus` unchanged (`none`): the
backward branch returns early. -/
theorem c1_counterexample :
    getTabbableElements_exports rootTwoButtons = [buttonData 21, buttonData 22] ∧
    (handleKeyDown_exports trapA worldA { key := "Tab", shiftKey := true } rootTwoButtons
      (some (buttonData 21))).2.focusCalls = [] ∧
    (handleKeyDown_exports trapA worldA { key := "Tab", shiftKey := true } rootTwoButtons
      (some (buttonData 21))).1.currentFocus = none := by
  have htabs : getTabbableElements_exports rootTwoButtons = [buttonData 21, buttonData 22] := by
    simp [getTabbableElements_exports, walk_exports, walk_exportsList, rootTwoButtons, divRoot,
      leafNode, buttonData, baseElem, isTabbable_exports]
  refine ⟨htabs, ?_, ?_⟩ <;>
    simp [handleKeyDown_exports, adjustFocus_exports, htabs, isActive, worldA, trapA,
      possiblyHasTabbableChildren, buttonData, baseElem, jsFindIndex, jsFindIndexFrom, elemEq,
      stepIndex, focusOf, Effects.noop]

/-- The newest walker on a flat list of childless, shadowless, non-inert,
tabbable elements with fresh, pairwise-distinct identities yields exactly those
elements in document order. -/
theorem walk_latestList_flat (ds : List ElemData) (tabbed checked : List Nat)
    (hfresh : ∀ d ∈ ds, d.id ∉ tabbed ∧ d.id ∉ checked)
    (hdist : (ds.map ElemData.id).Nodup)
    (htab : ∀ d ∈ ds, d.inert = false ∧ isTabbable_latest d false = true) :
    (walk_latestList (ds.map leafNode) false tabbed checked).1 = ds := by
  induction ds generalizing tabbed checked with
  | nil => simp [walk_latestList]
  | cons d rest ih =>
    have hd := htab d (by simp)
    have hf := hfresh d (by simp)
    have hdist2 : (∀ x ∈ rest, ¬x.id = d.id) ∧ (List.map ElemData.id rest).Nodup := by
      simpa using hdist
    have hstep : walk_latest (leafNode d) false tabbed checked
        = ([d], d.id :: tabbed, d.id :: checked) := by
      simp [walk_latest, walk_latestList, leafNode, hd.1, hd.2, hf.1, hf.2]
    have ihr := ih (d.id :: tabbed) (d.id :: checked)
      (by
        intro x hx
        have hfr := hfresh x (by simp [hx])
        have hne : ¬x.id = d.id := hdist2.1 x hx
        simp [List.mem_cons, hfr.1, hfr.2, hne])
      hdist2.2
      (fun x hx => htab x (by simp [hx]))
    simp only [List.map_cons, walk_latestList, hstep]
    simp [ihr]

/-- `getTabbableElements` (newest variant) over a plain div whose children are
childless tabbable elements with nonzero distinct ids: the traversal collects
the children in document order and the comparator sort is applied to them. -/
theorem getTabbable_latest_divRoot (ds : List ElemData)
    (hdist : (ds.map ElemData.id).Nodup)
    (h0 : ∀ d ∈ ds, d.id ≠ 0)
    (htab : ∀ d ∈ ds, d.inert = false ∧ isTabbable_latest d false = true) :
    getTabbableElements_latest (divRoot (ds.map leafNode)) false = jsSortByTabIndex ds := by
  have hchildren := walk_latestList_flat ds [] [0]
    (by
      intro d hd
      simp [h0 d hd])
    hdist htab
  simp only [getTabbableElements_latest, divRoot, walk_latest]
  simp only [baseElem, Bool.false_or, Bool.or_false]
  simp [isTabbable_latest, jsLeNegOne, jsNumber, hchildren]

/-- Sorting a list whose sort keys are all 0 leaves it unchanged (the stable
sort never reorders comparator-equal elements). -/
theorem jsSort_all_zero (ds : List ElemData) (h : ∀ d ∈ ds, sortKey d = 0) :
    jsSortByTabIndex ds = ds := by
  induction ds with
  | nil => rfl
  | cons d rest ih =>
    simp only [jsSortByTabIndex]
    rw [ih (fun x hx => h x (by simp [hx]))]
    cases rest with
    | nil => rfl
    | cons e rest2 =>
      have hle : sortLeq d e = true := by
        simp [sortLeq, sortByTabIndex, h d (by simp), h e (by simp)]
      simp [insertStable, hle]

/-- The insertion step sinks an element below every earlier element the
comparator orders strictly before it, and stops in front of the first element
it does not. -/
theorem insertStable_sink (x : ElemData) (A B : List ElemData)
    (hA : ∀ a ∈ A, sortLeq x a = false)
    (hB : ∀ b ∈ B.head?, sortLeq x b = true) :
    insertStable x (A ++ B) = A ++ x :: B := by
  induction A with
  | nil =>
    cases B with
    | nil => rfl
    | cons b bs =>
      have hb : sortLeq x b = true := hB b (by simp)
      simp [insertStable, hb]
  | cons a as ih =>
    have ha : sortLeq x a = false := hA a (by simp)
    simp only [List.cons_append, insertStable, ha]
    simp [ih (fun y hy => hA y (by simp [hy]))]

/-- The tab-index sort on strictly key-increasing positive-key elements
followed by key-0 elements reverses the first block (descending keys first)
and keeps the key-0 block behind it in stable order. -/
theorem jsSort_desc (ps zs : List ElemData)
    (hinc : ps.Pairwise (fun a b => sortKey a < sortKey b))
    (hpos : ∀ p ∈ ps, 1 ≤ sortKey p)
    (hz : ∀ z ∈ zs, sortKey z = 0) :
    jsSortByTabIndex (ps ++ zs) = ps.reverse ++ zs := by
  induction ps with
  | nil => simpa using jsSort_all_zero zs hz
  | cons p rest ih =>
    obtain ⟨hhead, htail⟩ := List.pairwise_cons.mp hinc
    simp only [List.cons_append, jsSortByTabIndex, List.append_eq]
    rw [ih htail (fun x hx => hpos x (by simp [hx]))]
    rw [insertStable_sink p rest.reverse zs
      (by
        intro a ha
        have hlt : sortKey p < sortKey a := hhead a (List.mem_reverse.mp ha)
        simp only [sortLeq, sortByTabIndex, decide_eq_false_iff_not]
        omega)
      (by
        intro b hb
        have hb0 : sortKey b = 0 := hz b (by
          cases zs with
          | nil => simp at hb
          | cons z zs2 =>
            simp only [List.head?_cons, Option.mem_def, Option.some.injEq] at hb
            simp [← hb])
        have hp1 : 1 ≤ sortKey p := hpos p (by simp)
        simp only [sortLeq, sortByTabIndex, decide_eq_true_eq]
        omega)]
    simp

/-- C4 counterexample: three buttons with `tabindex` 1, 2, 3 in document order
are enumerated by `getTabbableElements` in DESCENDING tabindex order (3, 2, 1),
not the ascending order (1, 2, 3) the claim states: the comparator
`bTabindex - aTabindex` sorts larger tabindex values first. -/
theorem c4_counterexample :
    getTabbableElements_latest (divRoot [leafNode (buttonDataTI 1 "1"),
        leafNode (buttonDataTI 2 "2"), leafNode (buttonDataTI 3 "3")]) false
      = [buttonDataTI 3 "3", buttonDataTI 2 "2", buttonDataTI 1 "1"] ∧
    [buttonDataTI 3 "3", buttonDataTI 2 "2", buttonDataTI 1 "1"]
      ≠ [buttonDataTI 1 "1", buttonDataTI 2 "2", buttonDataTI 3 "3"] := by
  constructor
  · simp [getTabbableElements_latest, walk_latest, walk_latestList, jsSortByTabIndex,
      insertStable, sortLeq, sortByTabIndex, sortKey, isTabbable_latest, divRoot, leafNode,
      buttonDataTI, buttonData, baseElem, jsNumber, jsNumberOfString, parseDigitsAux, jsLeNegOne]
  · decide

/-- C4 amended: for a root whose tabbable children carry distinct positive
explicit tabindex values in increasing document order, followed by elements
whose tabindex is 0 or absent, `getTabbableElements` enumerates the
positive-tabindex elements in DESCENDING tabindex order (3, 2, 1, not 1, 2, 3),
still ahead of the tabindex-0/absent elements, which keep their stable
traversal (document) order. -/
theorem c4_amended_descending_enumeration (ps zs : List ElemData)
    (hdist : ((ps ++ zs).map ElemData.id).Nodup)
    (h0 : ∀ d ∈ ps ++ zs, d.id ≠ 0)
    (htab : ∀ d ∈ ps ++ zs, d.inert = false ∧ isTabbable_latest d false = true)
    (hinc : ps.Pairwise (fun a b => sortKey a < sortKey b))
    (hpos : ∀ p ∈ ps, 1 ≤ sortKey p)
    (hz : ∀ z ∈ zs, sortKey z = 0) :
    getTabbableElements_latest (divRoot ((ps ++ zs).map leafNode)) false
      = ps.reverse ++ zs := by
  rw [getTabbable_latest_divRoot (ps ++ zs) hdist h0 htab]
  exact jsSort_desc ps zs hinc hpos hz

/-- C4 amended witness: buttons with tabindex 1, 2, 3 followed by a plain
button come out as 3, 2, 1 and then the plain button. -/
theorem c4_amended_witness :
    getTabbableElements_latest (divRoot [leafNode (buttonDataTI 1 "1"),
        leafNode (buttonDataTI 2 "2"), leafNode (buttonDataTI 3 "3"),
        leafNode (buttonData 4)]) false
      = [buttonDataTI 3 "3", buttonDataTI 2 "2", buttonDataTI 1 "1", buttonData 4] := by
  have h := c4_amended_descending_enumeration
    [buttonDataTI 1 "1", buttonDataTI 2 "2", buttonDataTI 3 "3"] [buttonData 4]
    (by decide) (by decide) (by decide) (by decide) (by decide) (by decide)
  simpa using h

/-- C8 amended witness: adding `aria-disabled="true"` to a plain visible button
leaves the newest classifier's verdict unchanged, while the exports snapshot
then reports the button as not tabbable. -/
theorem c8_amended_witness :
    isTabbable_latest { buttonData 1 with ariaDisabled := some "true" } false
      = isTabbable_latest (buttonData 1) false ∧
    isTabbable_exports { buttonData 1 with ariaDisabled := some "true" } = false := by
  exact ⟨c8_amended_aria_disabled.1 (buttonData 1) (some "true") false,
    c8_amended_aria_disabled.2 (buttonData 1) "true" (by decide)⟩
